import Mathlib

/-!
Verification of the `ZBotIMU` adapter (`src/runtime/kos_platform/src/imu.rs`).

The adapter wraps a BNO055 chip driver behind a mutex and implements the
generic `IMU` capability interface.  We embed the adapter shallowly:

* the chip driver (`linux_bno055::Bno055`) is external to the fragment, so it
  is modelled as an arbitrary state machine `Bno055 σ`: each driver operation
  consumes a driver state `σ` and returns an `Except String` result together
  with the successor state;
* every adapter method becomes a pure function of the driver and its state
  (the mutex guarantees exclusive ownership of the state for the duration of
  a call), returning the method result, the final driver state, and the list
  of chip-driver calls issued, in order;
* Rust's `Result<T>` becomes `Except String T`; the `?` operator becomes an
  explicit early return of the error;
* `f32` and `f64` sensor values are modelled as rationals: the only numeric
  operation the adapter performs is the exact widening cast `f32 -> f64`,
  which is value-preserving, so a common exact carrier is faithful.
-/

namespace KosImu

/-- Model of `f32` sensor values.  The adapter only copies and widens them,
so an exact carrier is faithful. -/
abbrev F32 : Type := Rat

/-- Model of `f64` response values. -/
abbrev F64 : Type := Rat

/-- The widening cast `as f64` applied to an `f32` value.  On real IEEE
floats this conversion is exact, so on the rational model it is the
identity. -/
def f32ToF64 (x : F32) : F64 := x

/-- Model of `std::time::Duration` (nanoseconds).  Only passed, never read. -/
def Duration : Type := Nat

/-- `linux_bno055` 3-axis vector (linear acceleration). -/
structure Vec3 where
  x : F32
  y : F32
  z : F32
deriving DecidableEq

/-- `linux_bno055` Euler-angle reading. -/
structure EulerAngles where
  roll : F32
  pitch : F32
  yaw : F32
deriving DecidableEq

/-- `linux_bno055` quaternion reading. -/
structure Quaternion where
  w : F32
  x : F32
  y : F32
  z : F32
deriving DecidableEq

/-- `linux_bno055::registers::OperationMode` — the adapter only ever uses
`Ndof`; `Config` stands for the remaining modes of the chip. -/
inductive OperationMode where
  | Ndof
  | Config
deriving DecidableEq

/-- The chip-driver interface consumed by the adapter
(`linux_bno055::Bno055`), as an arbitrary state machine over driver states
`σ`.  Each operation may fail with a driver-specific error message. -/
structure Bno055 (σ : Type) where
  get_linear_acceleration : σ → Except String Vec3 × σ
  get_euler_angles : σ → Except String EulerAngles × σ
  get_quaternion : σ → Except String Quaternion × σ
  reset : σ → Except String Unit × σ
  set_mode : σ → OperationMode → Except String Unit × σ

/-- One chip-driver invocation, for recording call traces. -/
inductive DriverCall where
  | getLinearAcceleration
  | getEulerAngles
  | getQuaternion
  | reset
  | setMode (mode : OperationMode)
deriving DecidableEq

/-- `kos_proto::common::ErrorCode` (defined outside this fragment; only the
variant used by the adapter is needed). -/
inductive ErrorCode where
  | HardwareFailure
deriving DecidableEq

/-- Modelled from the spec: the numeric wire value of the proto error code
(`ErrorCode::HardwareFailure as i32`).  The proto enum definition is not part
of this fragment; the adapter only ever casts `HardwareFailure`. -/
def ErrorCode.toI32 : ErrorCode → Int
  | .HardwareFailure => 1

/-- `kos_proto::common::Error`. -/
structure Error where
  code : Int
  message : String
deriving DecidableEq

/-- `kos_proto::common::ActionResponse`. -/
structure ActionResponse where
  success : Bool
  error : Option Error
deriving DecidableEq

/-- `google_proto::longrunning::Operation`.  The `metadata` and `result`
payload types (protobuf `Any`) are external to the fragment; the adapter
only ever sets them to `None`, so a unit payload carrier is faithful. -/
structure Operation where
  name : String
  metadata : Option Unit
  done : Bool
  result : Option Unit
deriving DecidableEq

/-- `hal::ImuValuesResponse`. -/
structure ImuValuesResponse where
  accel_x : F64
  accel_y : F64
  accel_z : F64
  gyro_x : F64
  gyro_y : F64
  gyro_z : F64
  mag_x : Option F64
  mag_y : Option F64
  mag_z : Option F64
  error : Option Error
deriving DecidableEq

/-- `hal::EulerAnglesResponse`. -/
structure EulerAnglesResponse where
  roll : F64
  pitch : F64
  yaw : F64
  error : Option Error
deriving DecidableEq

/-- `hal::QuaternionResponse`. -/
structure QuaternionResponse where
  w : F64
  x : F64
  y : F64
  z : F64
  error : Option Error
deriving DecidableEq

/-- The adapter: owns the (mutex-guarded) chip-driver state. -/
structure ZBotIMU (σ : Type) where
  imu : σ

/-- `ZBotIMU::new(i2c_bus)`: opens the chip driver on the given bus
(`Bno055::new(i2c_bus)?`) and wraps it.  `mkDriver` is the external
`Bno055::new` constructor. -/
def ZBotIMU.new (σ : Type) (mkDriver : String → Except String σ)
    (i2c_bus : String) : Except String (ZBotIMU σ) :=
  match mkDriver i2c_bus with
  | .ok d => .ok ⟨d⟩
  | .error e => .error e

/-- `impl Default for ZBotIMU`: the body is
`unimplemented!("ZBotIMU cannot be default, it requires I2C bus configuration")`,
i.e. an unconditional panic.  A panic is modelled as the `error` branch of
`Except`, carrying the panic message. -/
def ZBotIMU.defaultInstance (σ : Type) : Except String (ZBotIMU σ) :=
  .error "not implemented: ZBotIMU cannot be default, it requires I2C bus configuration"

/-- `ZBotIMU::get_values`: lock, read linear acceleration (propagating a
driver failure via `?`), and build the response with gyro fields fixed at
zero and magnetometer fields absent. -/
def ZBotIMU.get_values (σ : Type) (drv : Bno055 σ) (s : σ) :
    Except String ImuValuesResponse × σ × List DriverCall :=
  match drv.get_linear_acceleration s with
  | (.error e, s1) => (.error e, s1, [DriverCall.getLinearAcceleration])
  | (.ok accel, s1) =>
      (.ok { accel_x := f32ToF64 accel.x
             accel_y := f32ToF64 accel.y
             accel_z := f32ToF64 accel.z
             gyro_x := 0
             gyro_y := 0
             gyro_z := 0
             mag_x := none
             mag_y := none
             mag_z := none
             error := none },
       s1, [DriverCall.getLinearAcceleration])

/-- `ZBotIMU::get_euler`: lock, read Euler angles (propagating a driver
failure via `?`), map roll/pitch/yaw directly. -/
def ZBotIMU.get_euler (σ : Type) (drv : Bno055 σ) (s : σ) :
    Except String EulerAnglesResponse × σ × List DriverCall :=
  match drv.get_euler_angles s with
  | (.error e, s1) => (.error e, s1, [DriverCall.getEulerAngles])
  | (.ok euler, s1) =>
      (.ok { roll := f32ToF64 euler.roll
             pitch := f32ToF64 euler.pitch
             yaw := f32ToF64 euler.yaw
             error := none },
       s1, [DriverCall.getEulerAngles])

/-- `ZBotIMU::get_quaternion`: lock, read the quaternion (propagating a
driver failure via `?`), map w/x/y/z directly. -/
def ZBotIMU.get_quaternion (σ : Type) (drv : Bno055 σ) (s : σ) :
    Except String QuaternionResponse × σ × List DriverCall :=
  match drv.get_quaternion s with
  | (.error e, s1) => (.error e, s1, [DriverCall.getQuaternion])
  | (.ok quat, s1) =>
      (.ok { w := f32ToF64 quat.w
             x := f32ToF64 quat.x
             y := f32ToF64 quat.y
             z := f32ToF64 quat.z
             error := none },
       s1, [DriverCall.getQuaternion])

/-- `ZBotIMU::calibrate`: touches no hardware; unconditionally returns a
completed operation with the fixed name and empty payloads. -/
def ZBotIMU.calibrate (σ : Type) (drv : Bno055 σ) (s : σ) :
    Except String Operation × σ × List DriverCall :=
  (.ok { name := "operations/calibrate_imu/0"
         metadata := none
         done := true
         result := none },
   s, [])

/-- `ZBotIMU::zero`: lock, reset the chip; on success re-apply NDOF mode
(reporting a hardware-failure action result if that fails); on reset failure
report a hardware-failure action result.  All five tuning parameters are
accepted but unused, exactly as in the source. -/
def ZBotIMU.zero (σ : Type) (drv : Bno055 σ) (s : σ)
    (duration : Option Duration) (max_retries : Option Nat)
    (max_angular_error : Option F32) (max_vel : Option F32)
    (max_accel : Option F32) :
    Except String ActionResponse × σ × List DriverCall :=
  match drv.reset s with
  | (.ok _, s1) =>
      match drv.set_mode s1 OperationMode.Ndof with
      | (.error e, s2) =>
          (.ok { success := false
                 error := some { code := ErrorCode.HardwareFailure.toI32
                                 message := "Failed to set IMU mode: " ++ e } },
           s2, [DriverCall.reset, DriverCall.setMode OperationMode.Ndof])
      | (.ok _, s2) =>
          (.ok { success := true, error := none },
           s2, [DriverCall.reset, DriverCall.setMode OperationMode.Ndof])
  | (.error e, s1) =>
      (.ok { success := false
             error := some { code := ErrorCode.HardwareFailure.toI32
                             message := "Failed to zero IMU: " ++ e } },
       s1, [DriverCall.reset])

/-! ### Concrete driver instances used to witness the theorems -/

/-- A fake driver on state `Nat` whose every operation fails. -/
def failDriver : Bno055 Nat where
  get_linear_acceleration := fun s => (.error "lin-acc unavailable", s)
  get_euler_angles := fun s => (.error "euler unavailable", s)
  get_quaternion := fun s => (.error "quat unavailable", s)
  reset := fun s => (.error "reset failed", s + 1)
  set_mode := fun s _ => (.error "mode failed", s)

/-- A fake driver on state `Nat` whose every operation succeeds with fixed
readings, bumping the state on each call. -/
def okDriver : Bno055 Nat where
  get_linear_acceleration := fun s => (.ok { x := 1, y := 2, z := 3 }, s + 1)
  get_euler_angles := fun s => (.ok { roll := 4, pitch := 5, yaw := 6 }, s + 1)
  get_quaternion := fun s => (.ok { w := 7, x := 8, y := 9, z := 10 }, s + 1)
  reset := fun s => (.ok (), s + 1)
  set_mode := fun s _ => (.ok (), s + 1)

/-- A fake driver on state `Nat` whose `reset` succeeds but whose `set_mode`
fails. -/
def modeFailDriver : Bno055 Nat where
  get_linear_acceleration := fun s => (.ok { x := 1, y := 2, z := 3 }, s + 1)
  get_euler_angles := fun s => (.ok { roll := 4, pitch := 5, yaw := 6 }, s + 1)
  get_quaternion := fun s => (.ok { w := 7, x := 8, y := 9, z := 10 }, s + 1)
  reset := fun s => (.ok (), s + 1)
  set_mode := fun s _ => (.error "mode failed", s + 2)

/-! ### Claim theorems -/

/-- Claim C1: whenever the driver's `reset` fails, `zero` returns a
successful (`Ok`) `ActionResponse` with `success = false` and an error whose
code is `HardwareFailure` and whose message contains the driver failure
description; the call trace is exactly one `reset` call — no retries — for
every value of `max_retries` (and of the other parameters). -/
theorem zero_reset_failure (σ : Type) (drv : Bno055 σ) (s s1 : σ) (e : String)
    (duration : Option Duration) (max_retries : Option Nat)
    (max_angular_error max_vel max_accel : Option F32)
    (h : drv.reset s = (.error e, s1)) :
    ∃ err : Error,
      ZBotIMU.zero σ drv s duration max_retries max_angular_error max_vel max_accel =
        (Except.ok { success := false, error := some err }, s1, [DriverCall.reset]) ∧
      err.code = ErrorCode.HardwareFailure.toI32 ∧
      ∃ pre post, err.message = pre ++ e ++ post := by
  refine ⟨{ code := ErrorCode.HardwareFailure.toI32
            message := "Failed to zero IMU: " ++ e }, ?_, rfl,
          "Failed to zero IMU: ", "", by simp⟩
  simp [ZBotIMU.zero, h]

/-- Witness for C1: `failDriver` rejects `reset` even when three retries are
requested; the single-reset trace and failure response are observed. -/
theorem zero_reset_failure_witness :
    ∃ err : Error,
      ZBotIMU.zero Nat failDriver 0 none (some 3) none none none =
        (Except.ok { success := false, error := some err }, 1, [DriverCall.reset]) ∧
      err.code = ErrorCode.HardwareFailure.toI32 ∧
      ∃ pre post, err.message = pre ++ "reset failed" ++ post :=
  zero_reset_failure Nat failDriver 0 1 "reset failed" none (some 3) none none none rfl

/-- Claim C2: whenever `reset` succeeds but the subsequent `set_mode` fails,
`zero` returns `success = false` with a `HardwareFailure` error whose
message contains the mode-set failure description, and the trace ends at the
failed `set_mode` call — no further driver call is made. -/
theorem zero_set_mode_failure (σ : Type) (drv : Bno055 σ) (s s1 s2 : σ) (e : String)
    (duration : Option Duration) (max_retries : Option Nat)
    (max_angular_error max_vel max_accel : Option F32)
    (h1 : drv.reset s = (.ok (), s1))
    (h2 : drv.set_mode s1 OperationMode.Ndof = (.error e, s2)) :
    ∃ err : Error,
      ZBotIMU.zero σ drv s duration max_retries max_angular_error max_vel max_accel =
        (Except.ok { success := false, error := some err }, s2,
         [DriverCall.reset, DriverCall.setMode OperationMode.Ndof]) ∧
      err.code = ErrorCode.HardwareFailure.toI32 ∧
      ∃ pre post, err.message = pre ++ e ++ post := by
  refine ⟨{ code := ErrorCode.HardwareFailure.toI32
            message := "Failed to set IMU mode: " ++ e }, ?_, rfl,
          "Failed to set IMU mode: ", "", by simp⟩
  simp [ZBotIMU.zero, h1, h2]

/-- Witness for C2: `modeFailDriver` resets fine but rejects the mode write;
the reported failure and two-call trace are observed. -/
theorem zero_set_mode_failure_witness :
    ∃ err : Error,
      ZBotIMU.zero Nat modeFailDriver 0 none none none none none =
        (Except.ok { success := false, error := some err }, 3,
         [DriverCall.reset, DriverCall.setMode OperationMode.Ndof]) ∧
      err.code = ErrorCode.HardwareFailure.toI32 ∧
      ∃ pre post, err.message = pre ++ "mode failed" ++ post :=
  zero_set_mode_failure Nat modeFailDriver 0 1 3 "mode failed" none none none none none rfl rfl

/-- Claim C3: whenever `reset` and the subsequent `set_mode` both succeed,
`zero` returns `success = true` with no error, and the call trace shows the
NDOF operating mode being re-applied immediately after the reset. -/
theorem zero_success (σ : Type) (drv : Bno055 σ) (s s1 s2 : σ)
    (duration : Option Duration) (max_retries : Option Nat)
    (max_angular_error max_vel max_accel : Option F32)
    (h1 : drv.reset s = (.ok (), s1))
    (h2 : drv.set_mode s1 OperationMode.Ndof = (.ok (), s2)) :
    ZBotIMU.zero σ drv s duration max_retries max_angular_error max_vel max_accel =
      (Except.ok { success := true, error := none }, s2,
       [DriverCall.reset, DriverCall.setMode OperationMode.Ndof]) := by
  simp [ZBotIMU.zero, h1, h2]

/-- Witness for C3: `okDriver` accepts both calls; the success response and
reset-then-NDOF trace are observed. -/
theorem zero_success_witness :
    ZBotIMU.zero Nat okDriver 0 none none none none none =
      (Except.ok { success := true, error := none }, 2,
       [DriverCall.reset, DriverCall.setMode OperationMode.Ndof]) :=
  zero_success Nat okDriver 0 1 2 none none none none none rfl rfl

/-- Claim C4: `calibrate` makes no chip-driver call and unconditionally
returns a completed operation named `operations/calibrate_imu/0` with
`done = true`, no metadata and no result payload, for every driver and every
driver state. -/
theorem calibrate_never_touches_driver (σ : Type) (drv : Bno055 σ) (s : σ) :
    ZBotIMU.calibrate σ drv s =
      (Except.ok { name := "operations/calibrate_imu/0"
                   metadata := none
                   done := true
                   result := none },
       s, []) := rfl

/-- Claim C5: a successful `get_values` returns exactly the driver's linear
acceleration widened to `f64` in the accel fields, zero in the gyro fields,
absent magnetometer fields; and `get_values` fails, propagating the driver
error, exactly when the linear-acceleration read fails. -/
theorem get_values_spec (σ : Type) (drv : Bno055 σ) (s s1 : σ) :
    (∀ a : Vec3, drv.get_linear_acceleration s = (.ok a, s1) →
      ZBotIMU.get_values σ drv s =
        (Except.ok { accel_x := f32ToF64 a.x
                     accel_y := f32ToF64 a.y
                     accel_z := f32ToF64 a.z
                     gyro_x := 0
                     gyro_y := 0
                     gyro_z := 0
                     mag_x := none
                     mag_y := none
                     mag_z := none
                     error := none },
         s1, [DriverCall.getLinearAcceleration])) ∧
    (∀ e : String, drv.get_linear_acceleration s = (.error e, s1) →
      ZBotIMU.get_values σ drv s =
        (Except.error e, s1, [DriverCall.getLinearAcceleration])) := by
  constructor
  · intro a h
    simp [ZBotIMU.get_values, h]
  · intro e h
    simp [ZBotIMU.get_values, h]

/-- Witness for C5: both branches observed on `okDriver` and `failDriver`. -/
theorem get_values_spec_witness :
    ZBotIMU.get_values Nat okDriver 0 =
      (Except.ok { accel_x := 1, accel_y := 2, accel_z := 3
                   gyro_x := 0, gyro_y := 0, gyro_z := 0
                   mag_x := none, mag_y := none, mag_z := none
                   error := none },
       1, [DriverCall.getLinearAcceleration]) ∧
    ZBotIMU.get_values Nat failDriver 0 =
      (Except.error "lin-acc unavailable", 0, [DriverCall.getLinearAcceleration]) :=
  ⟨(get_values_spec Nat okDriver 0 1).1 { x := 1, y := 2, z := 3 } rfl,
   (get_values_spec Nat failDriver 0 0).2 "lin-acc unavailable" rfl⟩

/-- Claim C6: a successful `get_euler` returns exactly the driver's Euler
angles widened to `f64`, and a successful `get_quaternion` returns exactly
the driver's quaternion widened to `f64`; each call fails, propagating the
driver error, exactly when the corresponding driver read fails. -/
theorem get_euler_quaternion_spec (σ : Type) (drv : Bno055 σ) (s s1 : σ) :
    (∀ a : EulerAngles, drv.get_euler_angles s = (.ok a, s1) →
      ZBotIMU.get_euler σ drv s =
        (Except.ok { roll := f32ToF64 a.roll
                     pitch := f32ToF64 a.pitch
                     yaw := f32ToF64 a.yaw
                     error := none },
         s1, [DriverCall.getEulerAngles])) ∧
    (∀ e : String, drv.get_euler_angles s = (.error e, s1) →
      ZBotIMU.get_euler σ drv s = (Except.error e, s1, [DriverCall.getEulerAngles])) ∧
    (∀ q : Quaternion, drv.get_quaternion s = (.ok q, s1) →
      ZBotIMU.get_quaternion σ drv s =
        (Except.ok { w := f32ToF64 q.w
                     x := f32ToF64 q.x
                     y := f32ToF64 q.y
                     z := f32ToF64 q.z
                     error := none },
         s1, [DriverCall.getQuaternion])) ∧
    (∀ e : String, drv.get_quaternion s = (.error e, s1) →
      ZBotIMU.get_quaternion σ drv s = (Except.error e, s1, [DriverCall.getQuaternion])) := by
  refine ⟨?_, ?_, ?_, ?_⟩
  · intro a h
    simp [ZBotIMU.get_euler, h]
  · intro e h
    simp [ZBotIMU.get_euler, h]
  · intro q h
    simp [ZBotIMU.get_quaternion, h]
  · intro e h
    simp [ZBotIMU.get_quaternion, h]

/-- Witness for C6: all four branches observed on `okDriver` and
`failDriver`. -/
theorem get_euler_quaternion_spec_witness :
    ZBotIMU.get_euler Nat okDriver 0 =
      (Except.ok { roll := 4, pitch := 5, yaw := 6, error := none },
       1, [DriverCall.getEulerAngles]) ∧
    ZBotIMU.get_euler Nat failDriver 0 =
      (Except.error "euler unavailable", 0, [DriverCall.getEulerAngles]) ∧
    ZBotIMU.get_quaternion Nat okDriver 0 =
      (Except.ok { w := 7, x := 8, y := 9, z := 10, error := none },
       1, [DriverCall.getQuaternion]) ∧
    ZBotIMU.get_quaternion Nat failDriver 0 =
      (Except.error "quat unavailable", 0, [DriverCall.getQuaternion]) :=
  ⟨(get_euler_quaternion_spec Nat okDriver 0 1).1 { roll := 4, pitch := 5, yaw := 6 } rfl,
   (get_euler_quaternion_spec Nat failDriver 0 0).2.1 "euler unavailable" rfl,
   (get_euler_quaternion_spec Nat okDriver 0 1).2.2.1 { w := 7, x := 8, y := 9, z := 10 } rfl,
   (get_euler_quaternion_spec Nat failDriver 0 0).2.2.2 "quat unavailable" rfl⟩

/-- Claim C7: `zero` is insensitive to all five of its optional parameters —
for the same driver and driver state, any two parameter assignments yield
the same response, the same final driver state and the same call trace. -/
theorem zero_ignores_parameters (σ : Type) (drv : Bno055 σ) (s : σ)
    (d1 d2 : Option Duration) (r1 r2 : Option Nat)
    (a1 a2 v1 v2 c1 c2 : Option F32) :
    ZBotIMU.zero σ drv s d1 r1 a1 v1 c1 = ZBotIMU.zero σ drv s d2 r2 a2 v2 c2 := rfl

/-- Claim C8: the `Default` construction path never yields an adapter
instance: it is an unconditional panic (modelled as the `error` branch)
carrying the documented message, for every driver state type. -/
theorem default_construction_fails (σ : Type) :
    ZBotIMU.defaultInstance σ =
      Except.error
        "not implemented: ZBotIMU cannot be default, it requires I2C bus configuration" := rfl

/-- Claim C10: the embedded structured-error channel of the three read
responses is never populated: every `Ok` response from `get_values`,
`get_euler` or `get_quaternion` carries `error = none`. -/
theorem read_success_error_field_none (σ : Type) (drv : Bno055 σ) (s s1 : σ)
    (calls : List DriverCall) :
    (∀ r : ImuValuesResponse,
      ZBotIMU.get_values σ drv s = (Except.ok r, s1, calls) → r.error = none) ∧
    (∀ r : EulerAnglesResponse,
      ZBotIMU.get_euler σ drv s = (Except.ok r, s1, calls) → r.error = none) ∧
    (∀ r : QuaternionResponse,
      ZBotIMU.get_quaternion σ drv s = (Except.ok r, s1, calls) → r.error = none) := by
  refine ⟨?_, ?_, ?_⟩
  · intro r hr
    rcases h : drv.get_linear_acceleration s with ⟨res, t⟩
    rcases res with e | a <;> simp [ZBotIMU.get_values, h] at hr
    simp [← hr.1]
  · intro r hr
    rcases h : drv.get_euler_angles s with ⟨res, t⟩
    rcases res with e | a <;> simp [ZBotIMU.get_euler, h] at hr
    simp [← hr.1]
  · intro r hr
    rcases h : drv.get_quaternion s with ⟨res, t⟩
    rcases res with e | a <;> simp [ZBotIMU.get_quaternion, h] at hr
    simp [← hr.1]

/-- Witness for C10: the three successful reads on `okDriver` all carry an
empty error field. -/
theorem read_success_error_field_none_witness :
    ({ accel_x := 1, accel_y := 2, accel_z := 3
       gyro_x := 0, gyro_y := 0, gyro_z := 0
       mag_x := none, mag_y := none, mag_z := none
       error := none } : ImuValuesResponse).error = none ∧
    ({ roll := 4, pitch := 5, yaw := 6, error := none } : EulerAnglesResponse).error = none ∧
    ({ w := 7, x := 8, y := 9, z := 10, error := none } : QuaternionResponse).error = none :=
  ⟨(read_success_error_field_none Nat okDriver 0 1
      [DriverCall.getLinearAcceleration]).1 _ rfl,
   (read_success_error_field_none Nat okDriver 0 1
      [DriverCall.getEulerAngles]).2.1 _ rfl,
   (read_success_error_field_none Nat okDriver 0 1
      [DriverCall.getQuaternion]).2.2 _ rfl⟩

end KosImu
